import Mathlib

/-!
Verification of the MallocLab allocator (`src/mm.c`).

Shallow embedding of the dynamic memory allocator in `src/mm.c`.

Machine model (from the spec, §3 and §9): word size 4, double-word size 8,
pointer width and `size_t` width 32 bits, little-endian.  The heap is
modelled as a map from word-aligned byte addresses to 32-bit word values,
stored as an association list (first binding for an address wins); every
address the allocator itself reads or writes through `GET`/`PUT` is 4-byte
aligned, because block sizes are multiples of 8 and payload pointers are
8-byte aligned.  Unwritten memory reads as 0, matching the fresh zero pages
of the memory simulator.  Byte-level accesses (client stores, `memcpy`
inside `mm_realloc`) are modelled by read-modify-write on the containing
word, little-endian.

The page-grant primitive `mem_sbrk` appends bytes at the heap tail and
fails when a fixed capacity (20 MiB, the simulator's default) is exceeded.

C loops become fuel-indexed recursions: a result `none` means the fuel ran
out (the C loop did not terminate within that many iterations); `some r`
is the value the C function returns.
-/

namespace MM

/-- Constant 2^32, the `size_t` / word modulus of the modelled 32-bit
machine. -/
def two32 : Nat := 4294967296

/-- Word-addressed memory: association list from (4-aligned) byte address
to stored 32-bit word.  The first binding for an address wins. -/
abbrev Mem := List (Nat × Nat)

/-- Read the word stored at address `a`; unwritten memory reads 0. -/
def memRead : Mem → Nat → Nat
  | [], _ => 0
  | (k, v) :: t, a => if k = a then v else memRead t a

/-- Write word `v` at address `a`, keeping the list sorted by address and
duplicate-free (so that concretely computed states are canonical). -/
def memWrite : Mem → Nat → Nat → Mem
  | [], a, v => [(a, v)]
  | (k, w) :: t, a, v =>
    if a < k then (a, v) :: (k, w) :: t
    else if a = k then (a, v) :: t
    else (k, w) :: memWrite t a v

/-- Allocator state: heap memory, the simulator's break pointer and
capacity, and the three globals of `mm.c` (`heap_listp`, `free_listp`,
`epilogue`).  Null pointers are address 0. -/
structure MMState where
  mem : Mem
  brk : Nat
  cap : Nat
  heap_listp : Nat
  free_listp : Nat
  epilogue : Nat
  deriving Repr, DecidableEq

/-- Source `GET(p)`: read the 32-bit word at address `p`. -/
def GET (st : MMState) (p : Nat) : Nat := memRead st.mem p % two32

/-- Source `PUT(p, val)`: store the 32-bit word `val` at address `p`. -/
def PUT (st : MMState) (p v : Nat) : MMState :=
  { st with mem := memWrite st.mem p (v % two32) }

/-- Source `PACK(size, alloc) = size | alloc`. -/
def pack (size alloc : Nat) : Nat := size ||| alloc

/-- Source `GET_SIZE(p) = GET(p) & ~0x7`, applied to a value already
read. -/
def GET_SIZE (v : Nat) : Nat := v - v % 8

/-- Source `GET_ALLOC(p) = GET(p) & 0x1`, applied to a value already
read. -/
def GET_ALLOC (v : Nat) : Nat := v % 2

/-- Source `GET_ALIGN(p) = GET(p) & 0x7`, applied to a value already
read. -/
def GET_ALIGN (v : Nat) : Nat := v % 8

/-- Source `HDRP(bp) = bp - WSIZE`. -/
def HDRP (bp : Nat) : Nat := bp - 4

/-- Source `FTRP(bp) = bp + GET_SIZE(HDRP(bp)) - DSIZE`. -/
def FTRP (st : MMState) (bp : Nat) : Nat := bp + GET_SIZE (GET st (HDRP bp)) - 8

/-- Source `NEXT_BLKP(bp) = bp + GET_SIZE(bp - WSIZE)`. -/
def NEXT_BLKP (st : MMState) (bp : Nat) : Nat := bp + GET_SIZE (GET st (HDRP bp))

/-- Source `PREV_BLKP(bp) = bp - GET_SIZE(bp - DSIZE)`. -/
def PREV_BLKP (st : MMState) (bp : Nat) : Nat := bp - GET_SIZE (GET st (bp - 8))

/-- Source `NEXT_FREE(bp) = GET(bp + WSIZE)`. -/
def NEXT_FREE (st : MMState) (bp : Nat) : Nat := GET st (bp + 4)

/-- Source `PREV_FREE(bp) = GET(bp)`. -/
def PREV_FREE (st : MMState) (bp : Nat) : Nat := GET st bp

/-- Wrapping 32-bit subtraction, for the `size_t` subtractions of the C
code (e.g. `csize - asize` in `place`). -/
def sub32 (a b : Nat) : Nat := (a % two32 + two32 - b % two32) % two32

/-- Source `mem_sbrk(incr)`: extend the heap by `incr` bytes, returning a
pointer to the old break, or fail when the simulator's capacity is
exhausted. -/
def mem_sbrk (st : MMState) (incr : Nat) : MMState × Option Nat :=
  if st.brk + incr > st.cap then (st, none)
  else ({ st with brk := st.brk + incr }, some st.brk)

/-- Byte read at (possibly unaligned) address `a`, little-endian within
the containing word. -/
def getByte (st : MMState) (a : Nat) : Nat :=
  GET st (a - a % 4) / 256 ^ (a % 4) % 256

/-- Byte write at address `a`: read-modify-write of the containing word. -/
def setByte (st : MMState) (a b : Nat) : MMState :=
  let base := a - a % 4
  let j := a % 4
  let w := GET st base
  PUT st base (w % 256 ^ j + b % 256 * 256 ^ j + w / 256 ^ (j + 1) * 256 ^ (j + 1))

/-- Library `memcpy(dst, src, n)`: forward byte-by-byte copy. -/
def memcpy : MMState → Nat → Nat → Nat → MMState
  | st, _, _, 0 => st
  | st, d, s, n + 1 => memcpy (setByte st d (getByte st s)) (d + 1) (s + 1) n

/-!
Free-list operations of the source: `add_freeblock`, `remove_freeblock`.
-/

/-- Source `add_freeblock(bp)`: push `bp` onto the head of the LIFO free
list. -/
def add_freeblock (st : MMState) (bp : Nat) : MMState :=
  if st.free_listp = 0 then
    let st1 := { st with free_listp := bp }
    let st2 := PUT st1 bp 0
    PUT st2 (bp + 4) 0
  else
    let st1 := PUT st st.free_listp bp
    let st2 := PUT st1 bp 0
    let st3 := PUT st2 (bp + 4) st.free_listp
    { st3 with free_listp := bp }

/-- Source `remove_freeblock(bp)`: unlink `bp` from the doubly-linked free
list.  The four cases of the C code; in the middle case the second `PUT`'s
arguments are re-read from memory after the first `PUT`, as in C. -/
def remove_freeblock (st : MMState) (bp : Nat) : MMState :=
  if PREV_FREE st bp = 0 ∧ NEXT_FREE st bp = 0 then
    { st with free_listp := 0 }
  else if PREV_FREE st bp = 0 ∧ NEXT_FREE st bp ≠ 0 then
    let st1 := { st with free_listp := NEXT_FREE st bp }
    PUT st1 (NEXT_FREE st1 bp) 0
  else if PREV_FREE st bp ≠ 0 ∧ NEXT_FREE st bp = 0 then
    PUT st (PREV_FREE st bp + 4) 0
  else
    let st1 := PUT st (PREV_FREE st bp + 4) (NEXT_FREE st bp)
    PUT st1 (NEXT_FREE st1 bp) (PREV_FREE st1 bp)

/-!
Coalescing, placement, fitting and heap growth.
-/

/-- Source `coalesce(bp)`: merge the free block at `bp` with free
neighbors.  Every macro occurrence is re-evaluated against the memory
state at the point of the corresponding C statement. -/
def coalesce (st : MMState) (bp : Nat) : MMState × Nat :=
  let prev_alloc := GET_ALLOC (GET st (HDRP (PREV_BLKP st bp)))
  let next_alloc := GET_ALLOC (GET st (HDRP (NEXT_BLKP st bp)))
  let size := GET_SIZE (GET st (HDRP bp))
  if prev_alloc ≠ 0 ∧ next_alloc ≠ 0 then
    (add_freeblock st bp, bp)
  else if prev_alloc ≠ 0 ∧ next_alloc = 0 then
    let size1 := (size + GET_SIZE (GET st (HDRP (NEXT_BLKP st bp)))) % two32
    let st1 := remove_freeblock st (NEXT_BLKP st bp)
    let st2 := PUT st1 (HDRP bp) (pack size1 0)
    let st3 := PUT st2 (FTRP st2 bp) (pack size1 0)
    (add_freeblock st3 bp, bp)
  else if prev_alloc = 0 ∧ next_alloc ≠ 0 then
    let size1 := (size + GET_SIZE (GET st (HDRP (PREV_BLKP st bp)))) % two32
    let st1 := remove_freeblock st (PREV_BLKP st bp)
    let st2 := PUT st1 (HDRP (PREV_BLKP st1 bp)) (pack size1 0)
    let st3 := PUT st2 (FTRP st2 bp) (pack size1 0)
    let bp1 := PREV_BLKP st3 bp
    (add_freeblock st3 bp1, bp1)
  else
    let size1 := (size + GET_SIZE (GET st (HDRP (PREV_BLKP st bp)))
                       + GET_SIZE (GET st (FTRP st (NEXT_BLKP st bp)))) % two32
    let st1 := remove_freeblock st (PREV_BLKP st bp)
    let st2 := remove_freeblock st1 (NEXT_BLKP st1 bp)
    let st3 := PUT st2 (HDRP (PREV_BLKP st2 bp)) (pack size1 0)
    let st4 := PUT st3 (FTRP st3 (NEXT_BLKP st3 bp)) (pack size1 0)
    let bp1 := PREV_BLKP st4 bp
    (add_freeblock st4 bp1, bp1)

/-- Source `place(bp, asize)`: allocate `asize` bytes in free block `bp`,
splitting when the remainder can hold a minimum-size (16-byte) block.
The comparison `csize - asize >= MINIMUM` is a wrapping `size_t`
subtraction, as in C. -/
def place (st : MMState) (bp asize : Nat) : MMState :=
  let csize := GET_SIZE (GET st (HDRP bp))
  if 16 ≤ sub32 csize asize then
    let st1 := remove_freeblock st bp
    let st2 := PUT st1 (HDRP bp) (pack asize 1)
    let st3 := PUT st2 (FTRP st2 bp) (pack asize 1)
    let bp1 := NEXT_BLKP st3 bp
    let st4 := PUT st3 (HDRP bp1) (pack (sub32 csize asize) 0)
    let st5 := PUT st4 (FTRP st4 bp1) (pack (sub32 csize asize) 0)
    add_freeblock st5 bp1
  else
    let st1 := PUT st (HDRP bp) (pack csize 1)
    let st2 := PUT st1 (FTRP st1 bp) (pack csize 1)
    remove_freeblock st2 bp

/-- Loop of `find_fit`, with fuel.  A scan reaching C's NULL returns
`some 0` ("no fit"). -/
def find_fit_go (st : MMState) (asize : Nat) : Nat → Nat → Option Nat
  | 0, _ => none
  | _ + 1, 0 => some 0
  | fuel + 1, bp =>
    if asize ≤ GET_SIZE (GET st (HDRP bp)) then some bp
    else find_fit_go st asize fuel (NEXT_FREE st bp)

/-- Source `find_fit(asize)`: first-fit scan of the free list from its
head. -/
def find_fit (fuel : Nat) (st : MMState) (asize : Nat) : Option Nat :=
  find_fit_go st asize fuel st.free_listp

/-- Source `extend_heap(words)`: grow the heap by an even number of
words, carve a free block out of the new bytes, re-plant the epilogue
header word (the `epilogue` global is not updated), and coalesce.
Returns C's NULL as `none`. -/
def extend_heap (st : MMState) (words : Nat) : MMState × Option Nat :=
  let size := if words % 2 = 1 then (words + 1) * 4 % two32 else words * 4 % two32
  match mem_sbrk st size with
  | (st1, none) => (st1, none)
  | (st1, some bp) =>
    let st2 := PUT st1 (HDRP bp) (pack size 0)
    let st3 := PUT st2 (FTRP st2 bp) (pack size 0)
    let st4 := PUT st3 (HDRP (NEXT_BLKP st3 bp)) (pack 0 1)
    let r := coalesce st4 bp
    (r.1, some r.2)

/-!
Public entry points of the allocator.
-/

/-- Source `mm_init()`: lay down padding, prologue, epilogue, then extend
the heap by `CHUNKSIZE` bytes.  Returns `false` for C's `-1`. -/
def mm_init (st : MMState) : MMState × Bool :=
  match mem_sbrk st 16 with
  | (st1, none) => (st1, false)
  | (st1, some base) =>
    let st2 := PUT st1 base 0
    let st3 := PUT st2 (base + 4) (pack 8 1)
    let st4 := PUT st3 (base + 8) (pack 8 1)
    let st5 := PUT st4 (base + 12) (pack 0 1)
    let st6 := { st5 with epilogue := base + 12, heap_listp := base + 8,
                          free_listp := 0 }
    match extend_heap st6 (4096 / 4) with
    | (st7, none) => (st7, false)
    | (st7, some _) => (st7, true)

/-- Adjusted block size computed by `mm_malloc`, in wrapping 32-bit
`size_t` arithmetic: `asize = DSIZE * ((size + DSIZE + (DSIZE-1)) /
DSIZE)` for `size > DSIZE`, else `MINIMUM` (16). -/
def asize_of (size : Nat) : Nat :=
  if size ≤ 8 then 16 else 8 * ((size + 8 + 7) % two32 / 8) % two32

/-- Source `mm_malloc(size)`: zero request returns NULL; otherwise round
the request, first-fit scan, place on hit, extend the heap on miss.  The
second component `none` is C's NULL (it also covers fuel exhaustion of
the free-list scan, which never occurs in the concrete runs below). -/
def mm_malloc (fuel : Nat) (st : MMState) (size : Nat) : MMState × Option Nat :=
  if size = 0 then (st, none)
  else
    let asize := asize_of size
    match find_fit fuel st asize with
    | some bp =>
      if bp ≠ 0 then (place st bp asize, some bp)
      else
        let extendsize := max asize 4096
        match extend_heap st (extendsize / 4) with
        | (st1, none) => (st1, none)
        | (st1, some bp1) => (place st1 bp1 asize, some bp1)
    | none => (st, none)

/-- Source `mm_free(ptr)`: no-op on NULL or before initialization;
otherwise clear the allocated bit in header and footer and coalesce. -/
def mm_free (st : MMState) (ptr : Nat) : MMState :=
  if ptr = 0 ∨ st.heap_listp = 0 then st
  else
    let size := GET_SIZE (GET st (HDRP ptr))
    let st1 := PUT st (HDRP ptr) (pack size 0)
    let st2 := PUT st1 (FTRP st1 ptr) (pack size 0)
    (coalesce st2 ptr).1

/-- Source `mm_realloc(ptr, size)`: allocate anew, then copy
`*(size_t*)((char*)oldptr - SIZE_T_SIZE)` bytes (capped by `size`) and
free the old block.  `SIZE_T_SIZE = ALIGN(sizeof(size_t)) = 8`, so the
"old size" the code reads is the word at `ptr - 8`.  When `mm_malloc`
returns NULL (in particular for `size == 0`), it returns NULL without
freeing `ptr`. -/
def mm_realloc (fuel : Nat) (st : MMState) (ptr size : Nat) : MMState × Option Nat :=
  match mm_malloc fuel st size with
  | (st1, none) => (st1, none)
  | (st1, some newptr) =>
    let copySize := GET st1 (ptr - 8)
    let copySize1 := if size < copySize then size else copySize
    let st2 := memcpy st1 newptr ptr copySize1
    (mm_free st2 ptr, some newptr)

/-!
Heap checker: `mm_check` and its six audits.

Each audit returns `some 1` on success, `some 0` on failure (where the C
code prints a diagnostic and returns 0), and `none` when the fuel runs
out, i.e. the corresponding C loop did not terminate within `fuel`
iterations.
-/

/-- Loop of `correct_free_marked`: walk the free list, fail on an
allocated block. -/
def cfm_go (st : MMState) : Nat → Nat → Option Nat
  | 0, _ => none
  | _ + 1, 0 => some 1
  | fuel + 1, bp =>
    if GET_ALLOC (GET st (HDRP bp)) ≠ 0 then some 0
    else cfm_go st fuel (NEXT_FREE st bp)

/-- Source `correct_free_marked()`: every block in the free list is
free. -/
def correct_free_marked (fuel : Nat) (st : MMState) : Option Nat :=
  cfm_go st fuel st.free_listp

/-- Source `check_coalescing()`: the C code examines only `heap_listp` —
it reads the word at `heap_listp` itself (the prologue footer, via
`GET_ALLOC(bp)`, not `GET_ALLOC(HDRP(bp))`) and, were that word ever
unallocated, the header of the following block.  There is no loop. -/
def check_coalescing (st : MMState) : Nat :=
  let bp := st.heap_listp
  if GET_ALLOC (GET st bp) = 0 then
    if NEXT_BLKP st bp ≠ 0 ∧ GET_ALLOC (GET st (HDRP (NEXT_BLKP st bp))) = 0 then 0
    else 1
  else 1

/-- Inner loop of `check_freelist`: scan the free list until `cmp`
reaches `bp`; hitting a zero-size block first is the failure. -/
def cfl_inner (st : MMState) (bp : Nat) : Nat → Nat → Option Nat
  | 0, _ => none
  | fuel + 1, cmp =>
    if cmp = bp then some 1
    else if GET_SIZE (GET st (HDRP cmp)) = 0 then some 0
    else cfl_inner st bp fuel (NEXT_FREE st cmp)

/-- Outer loop of `check_freelist`: walk the heap; every free block must
be reachable in the free list. -/
def cfl_outer (st : MMState) : Nat → Nat → Option Nat
  | 0, _ => none
  | fuel + 1, bp =>
    if bp = 0 ∨ GET_SIZE (GET st (HDRP bp)) = 0 then some 1
    else if GET_ALLOC (GET st (HDRP bp)) = 0 then
      match cfl_inner st bp (fuel + 1) st.free_listp with
      | none => none
      | some 0 => some 0
      | some _ => cfl_outer st fuel (NEXT_BLKP st bp)
    else cfl_outer st fuel (NEXT_BLKP st bp)

/-- Source `check_freelist()`: every free block of the heap is on the
free list. -/
def check_freelist (fuel : Nat) (st : MMState) : Option Nat :=
  cfl_outer st fuel st.heap_listp

/-- Loop of `check_overlap`: for each allocated block, fail if
`bp + size - WSIZE >= NEXT_BLKP(bp)`. -/
def cov_go (st : MMState) : Nat → Nat → Option Nat
  | 0, _ => none
  | fuel + 1, bp =>
    if bp = 0 ∨ GET_SIZE (GET st (HDRP bp)) = 0 then some 1
    else if GET_ALLOC (GET st (HDRP bp)) ≠ 0 ∧
            NEXT_BLKP st bp ≤ bp + GET_SIZE (GET st (HDRP bp)) - 4 then some 0
    else cov_go st fuel (NEXT_BLKP st bp)

/-- Source `check_overlap()`: no allocated block overlaps the next
block. -/
def check_overlap (fuel : Nat) (st : MMState) : Option Nat :=
  cov_go st fuel st.heap_listp

/-- Loop of `check_valid_heap`: iterate from the first real block while
`bp < epilogue` (the `epilogue` global, which `extend_heap` never
updates); fail when the block's header is below the first real block's
header or the header value's low 3 bits differ from 8. -/
def cvh_go (st : MMState) : Nat → Nat → Option Nat
  | 0, _ => none
  | fuel + 1, bp =>
    if ¬ bp < st.epilogue then some 1
    else if HDRP bp < HDRP (NEXT_BLKP st st.heap_listp) ∨
            GET_ALIGN (GET st (HDRP bp)) ≠ 8 then some 0
    else cvh_go st fuel (NEXT_BLKP st bp)

/-- Source `check_valid_heap()`: pointers point to valid heap
addresses. -/
def check_valid_heap (fuel : Nat) (st : MMState) : Option Nat :=
  cvh_go st fuel (NEXT_BLKP st st.heap_listp)

/-- Loop of `check_consistency`: walk the free list, fail when a header
or footer carries the allocated bit. -/
def ccs_go (st : MMState) : Nat → Nat → Option Nat
  | 0, _ => none
  | _ + 1, 0 => some 1
  | fuel + 1, fr =>
    if GET_ALLOC (GET st (HDRP fr)) ≠ 0 ∨ GET_ALLOC (GET st (FTRP st fr)) ≠ 0 then
      some 0
    else ccs_go st fuel (NEXT_FREE st fr)

/-- Source `check_consistency()`: headers and footers of free-list
blocks agree on being free. -/
def check_consistency (fuel : Nat) (st : MMState) : Option Nat :=
  ccs_go st fuel st.free_listp

/-- Source `mm_check()`: run the six audits in order, 0 on first
failure. -/
def mm_check (fuel : Nat) (st : MMState) : Option Nat :=
  match correct_free_marked fuel st with
  | none => none
  | some 0 => some 0
  | some _ =>
    if check_coalescing st = 0 then some 0
    else
      match check_freelist fuel st with
      | none => none
      | some 0 => some 0
      | some _ =>
        match check_overlap fuel st with
        | none => none
        | some 0 => some 0
        | some _ =>
          match check_valid_heap fuel st with
          | none => none
          | some 0 => some 0
          | some _ =>
            match check_consistency fuel st with
            | none => none
            | some 0 => some 0
            | some _ => some 1

/-!
Spec-modelled audit A2.  The source's `check_coalescing` examines only
the first word; the spec's A2 describes a full forward walk.  This
definition follows the spec's words ("walk heap forward; fail if two
adjacent blocks both have `allocated_bit = 0`") and is used to compare
the code's audit against the specified one.
-/

/-- Modelled from the spec: the walk of audit A2 over real blocks,
reporting whether some pair of adjacent real blocks are both free. -/
def hasAdjacentFreeBlocks (st : MMState) : Nat → Nat → Option Bool
  | 0, _ => none
  | fuel + 1, bp =>
    if bp = 0 ∨ GET_SIZE (GET st (HDRP bp)) = 0 then some false
    else if GET_ALLOC (GET st (HDRP bp)) = 0 ∧
            GET_SIZE (GET st (HDRP (NEXT_BLKP st bp))) ≠ 0 ∧
            GET_ALLOC (GET st (HDRP (NEXT_BLKP st bp))) = 0 then some true
    else hasAdjacentFreeBlocks st fuel (NEXT_BLKP st bp)

/-!
Concrete runs.

`heap0` is the pristine simulator state (all globals zero, 20 MiB
capacity, untouched zero memory); `heapInit` is the state after a
successful `mm_init`.  The numbered states follow the call sequences
used by the claims; payload pointers are those the model returns
(`a = 16`, `b = 40`, `c = 64`, then the `CHUNKSIZE` remainder block).
-/

/-- Pristine simulator state before `mm_init`. -/
def heap0 : MMState :=
  { mem := [], brk := 0, cap := 20971520, heap_listp := 0, free_listp := 0,
    epilogue := 0 }

/-- State after a successful `mm_init` (one 4096-byte free block). -/
def heapInit : MMState := (mm_init heap0).1

/-- Client byte stores: write the listed byte values at consecutive
addresses starting at `a` (payload writes through a returned pointer). -/
def writeBytes : MMState → Nat → List Nat → MMState
  | st, _, [] => st
  | st, a, b :: t => writeBytes (setByte st a b) (a + 1) t

/-- Run of `a = alloc(16)` from `heapInit`; returns payload 16. -/
def heapA : MMState × Option Nat := mm_malloc 100 heapInit 16

/-- Run of `b = alloc(16)` after `heapA`; returns payload 40. -/
def heapB : MMState × Option Nat := mm_malloc 100 heapA.1 16

/-- Run of `c = alloc(16)` after `heapB`; returns payload 64. -/
def heapC : MMState × Option Nat := mm_malloc 100 heapB.1 16

/-- Run of `free(a)` after `heapC`. -/
def heapFreeA : MMState := mm_free heapC.1 16

/-- Run of `x = alloc(2^32 - 8)` after `free(a)`: the request wraps to
`asize = 0` inside `mm_malloc`, and the degenerate split corrupts the
prologue footer; the call returns payload 16 again. -/
def heapX : MMState × Option Nat := mm_malloc 100 heapFreeA (two32 - 8)

/-- Run of `free(x)` after `heapX` (`x = 16` was returned by the
previous `alloc` and is live). -/
def heapFreeX : MMState := mm_free heapX.1 16

/-- Run of `free(b)` after `heapFreeX` (`b = 40` is live): coalescing
against the corrupted sizes leaves a free block whose computed footer is
block `c`'s allocated footer. -/
def heapFreeB : MMState := mm_free heapFreeX 40

/-- Run of `free(b)` directly after the three allocations (the LIFO /
first-fit scenario of the spec). -/
def heapLifoFree : MMState := mm_free heapC.1 40

/-- Run of `p = alloc(10)` from `heapInit`; returns payload 16 with
block size 24 (usable payload 16 bytes). -/
def heapP : MMState × Option Nat := mm_malloc 100 heapInit 10

/-- Client writes bytes 100..110 at `p`, `p+1`, ..., `p+10`. -/
def heapPW : MMState :=
  writeBytes heapP.1 16 [100, 101, 102, 103, 104, 105, 106, 107, 108, 109, 110]

/-- Run of `q = realloc(p, 100)` after the writes; returns payload 40. -/
def heapR : MMState × Option Nat := mm_realloc 100 heapPW 16 100

/-- Run of `p = alloc(16)` from `heapInit`, for the `realloc(p, 0)`
scenario. -/
def heapQ : MMState × Option Nat := mm_malloc 100 heapInit 16

/-- Run of `d = alloc(16)` after `heapC`; returns payload 88. -/
def heapD : MMState × Option Nat := mm_malloc 100 heapC.1 16

/-- State used to exercise `coalesce` directly: after
`a = alloc(16); b = alloc(16); c = alloc(16); d = alloc(16); free(a);
free(c)`, block `b` (payload 40) has its header and footer marked free
by the two `PUT`s — exactly the state `mm_free(b)` hands `coalesce` —
with both neighbors free. -/
def heapCoal : MMState :=
  PUT (PUT (mm_free (mm_free heapD.1 16) 64) (HDRP 40) (pack 24 0)) 56 (pack 24 0)

/-!
Basic lemmas about the memory model.
-/

theorem memRead_memWrite (m : Mem) (a v k : Nat) :
    memRead (memWrite m a v) k = if k = a then v else memRead m k := by
  induction m with
  | nil =>
    simp only [memWrite, memRead]
    split_ifs <;> omega
  | cons hd t ih =>
    obtain ⟨hk, hv⟩ := hd
    simp only [memWrite]
    split_ifs with h1 h2 <;> simp only [memRead, ih] <;> split_ifs <;> omega

theorem GET_PUT_eq (st : MMState) (a v : Nat) :
    GET (PUT st a v) a = v % two32 := by
  simp only [GET, PUT, memRead_memWrite, if_pos rfl]
  exact Nat.mod_mod_of_dvd v dvd_rfl

theorem GET_PUT_ne (st : MMState) (a v k : Nat) (h : k ≠ a) :
    GET (PUT st a v) k = GET st k := by
  simp [GET, PUT, memRead_memWrite, h]

theorem GET_SIZE_eq_mul (v : Nat) : GET_SIZE v = 8 * (v / 8) := by
  simp only [GET_SIZE]
  omega

theorem dvd8_GET_SIZE (v : Nat) : 8 ∣ GET_SIZE v := by
  rw [GET_SIZE_eq_mul]; exact Dvd.intro _ rfl

theorem GET_SIZE_of_dvd {v : Nat} (h : 8 ∣ v) : GET_SIZE v = v := by
  rcases h with ⟨c, rfl⟩
  simp only [GET_SIZE]
  omega

theorem pack_zero (s : Nat) : pack s 0 = s := Nat.or_zero s

theorem GET_lt_two32 (st : MMState) (p : Nat) : GET st p < two32 :=
  Nat.mod_lt _ (by simp [two32])

/-!
Claim theorems.
-/

/-- Claim C9: `alloc(0)` returns null without growing the heap or
modifying any allocator state — `mm_malloc` returns NULL and the exact
input state on a zero-size request, for any state and any fuel. -/
theorem mm_malloc_zero_returns_null_unchanged (fuel : Nat) (st : MMState) :
    mm_malloc fuel st 0 = (st, none) := rfl

/-- Claim C7, counterexample: `realloc(p, 0)` does not behave as
`free(p)`.  After `p = alloc(16)` (payload 16, from a fresh heap),
`realloc(p, 0)` returns null but leaves the state unchanged: `p`'s
block still carries allocated bit 1, so it was not marked free. -/
theorem mm_realloc_zero_does_not_free :
    heapQ.2 = some 16
    ∧ mm_realloc 100 heapQ.1 16 0 = (heapQ.1, none)
    ∧ GET_ALLOC (GET (mm_realloc 100 heapQ.1 16 0).1 (HDRP 16)) = 1 := by
  decide

/-- Claim C7, amended: for every live payload pointer `p`,
`realloc(p, 0)` returns null and leaves the allocator state completely
unchanged — `p` is not freed, because `mm_realloc` returns as soon as
the internal `mm_malloc(0)` yields NULL. -/
theorem mm_realloc_zero_returns_null_unchanged (fuel : Nat) (st : MMState)
    (ptr : Nat) : mm_realloc fuel st ptr 0 = (st, none) := rfl

/-- Claim C8: `free(p)` is a no-op when `p` is null or when the
allocator has not been initialized (`heap_listp` still 0): it returns
the state unchanged — heap contents, free list and globals included. -/
theorem mm_free_noop_on_null_or_uninit (st : MMState) (ptr : Nat)
    (h : ptr = 0 ∨ st.heap_listp = 0) : mm_free st ptr = st := by
  simp only [mm_free]
  rw [if_pos h]

/-- Witness for claim C8: freeing the null pointer on an initialized
heap, and freeing a nonnull pointer on the uninitialized state, are both
no-ops. -/
theorem mm_free_noop_on_null_or_uninit_witness :
    ((0 : Nat) = 0 ∨ heapInit.heap_listp = 0)
    ∧ mm_free heapInit 0 = heapInit
    ∧ mm_free heap0 16 = heap0 :=
  ⟨Or.inl rfl, mm_free_noop_on_null_or_uninit heapInit 0 (Or.inl rfl),
    mm_free_noop_on_null_or_uninit heap0 16 (Or.inr rfl)⟩

/-- Claim C6: after `init`, the sequence `a = alloc(16)` (payload 16),
`b = alloc(16)` (payload 40), `c = alloc(16)` (payload 64), `free(b)`
leaves `b`'s block at the head of the free list (`free_listp = 40`), and
the next `alloc(16)` returns exactly the pointer `b = 40` — the
first-fit scan starts at the LIFO head. -/
theorem first_fit_returns_lifo_head :
    heapA.2 = some 16 ∧ heapB.2 = some 40 ∧ heapC.2 = some 64
    ∧ heapLifoFree.free_listp = 40
    ∧ (mm_malloc 100 heapLifoFree 16).2 = some 40 := by
  decide

/-- Claim C1 (code bug): the spec's P1 promises `mm_check` returns 1
after every prefix of any legal `alloc`/`free` sequence, but the
sequence `a = alloc(16); b = alloc(16); c = alloc(16); free(a);
x = alloc(2^32 - 8); free(x); free(b)` — all allocations of positive
sizes, all frees of live pointers previously returned by `alloc` —
drives `mm_check` to 0.  The request `2^32 - 8` wraps to `asize = 0` in
`mm_malloc`'s `size_t` arithmetic; the degenerate split overwrites the
prologue footer with `PACK(0, 1)`, so the following frees mis-compute
`PREV_BLKP` and merge sizes; after `free(b)` the free block at 16 has
header size 72, and its computed footer is block `c`'s allocated footer,
which `check_consistency` reports.  `mm_check` still returned 1 at every
earlier pause point (shown here for the prefix up to `free(x)`). -/
theorem mm_check_fails_after_wrap_sequence :
    (mm_init heap0).2 = true
    ∧ heapA.2 = some 16 ∧ heapB.2 = some 40 ∧ heapC.2 = some 64
    ∧ heapX.2 = some 16
    ∧ mm_check 100 heapFreeX = some 1
    ∧ mm_check 100 heapFreeB = some 0 := by
  decide

/-- Claim C2 (code bug): after `p = alloc(10)` (payload 16, block size
24, usable payload 16 ≥ 10 bytes) and writing bytes 100..110 at
`p..p+10`, `realloc(p, 100)` returns `q = 40` but does not preserve the
first `min(100, old_size)` bytes: the code takes the "old size" from the
word at `p - 8` — here the prologue footer, value 9 — and copies only
9 bytes, so byte 8 at `q` matches the original while byte 9 does not. -/
theorem mm_realloc_copy_loses_bytes :
    heapP.2 = some 16
    ∧ GET_SIZE (GET heapPW (HDRP 16)) = 24
    ∧ getByte heapPW (16 + 9) = 109
    ∧ GET heapPW 8 = 9
    ∧ heapR.2 = some 40
    ∧ getByte heapR.1 (40 + 8) = 108
    ∧ getByte heapR.1 (40 + 9) = 0
    ∧ getByte heapR.1 (40 + 9) ≠ getByte heapPW (16 + 9) := by
  decide

/-- Claim C3 (code bug): `check_coalescing` does not walk the whole
heap and does not return 0 when two adjacent real blocks are both
free.  In the reachable state `heapFreeB` the heap walk contains two
adjacent free real blocks (at payloads 16 and 88, per the spec-modelled
A2 walk), yet `check_coalescing` — which only inspects the single word
at `heap_listp` — returns 1. -/
theorem check_coalescing_misses_adjacent_free :
    hasAdjacentFreeBlocks heapFreeB 100
        (NEXT_BLKP heapFreeB heapFreeB.heap_listp) = some true
    ∧ check_coalescing heapFreeB = 1 := by
  decide

/-- Claim C5, counterexample: the adjusted size is not
`8 * ceil((s + 8) / 8)` for every `s > 8`; at `s = 2^32 - 1` the
`size_t` computation wraps and yields 8, not `2^32 + 8`. -/
theorem asize_of_wraps_at_max :
    asize_of (two32 - 1) = 8
    ∧ 8 * ((two32 - 1 + 8 + 7) / 8) = two32 + 8
    ∧ asize_of (two32 - 1) ≠ 8 * ((two32 - 1 + 8 + 7) / 8) := by
  decide

/-- Claim C5, amended: for every requested size `s > 0` with
`s + 15 < 2^32` (no `size_t` wrap), the adjusted internal size is 16
when `s ≤ 8` and `8 * ceil((s + 8) / 8)` otherwise; in particular
`alloc(1)` and `alloc(8)` both yield a block of internal size 16, and
`alloc(9)` yields internal size 24 (runs from the freshly initialized
heap, each returning payload 16). -/
theorem asize_of_correct_without_wrap (s : Nat) (h0 : 0 < s)
    (hw : s + 15 < two32) :
    asize_of s = (if s ≤ 8 then 16 else 8 * ((s + 8 + 7) / 8))
    ∧ asize_of 1 = 16 ∧ asize_of 8 = 16 ∧ asize_of 9 = 24
    ∧ (mm_malloc 100 heapInit 1).2 = some 16
    ∧ GET_SIZE (GET (mm_malloc 100 heapInit 1).1 (HDRP 16)) = 16
    ∧ (mm_malloc 100 heapInit 8).2 = some 16
    ∧ GET_SIZE (GET (mm_malloc 100 heapInit 8).1 (HDRP 16)) = 16
    ∧ (mm_malloc 100 heapInit 9).2 = some 16
    ∧ GET_SIZE (GET (mm_malloc 100 heapInit 9).1 (HDRP 16)) = 24 := by
  refine ⟨?_, by decide, by decide, by decide, by decide, by decide,
    by decide, by decide, by decide, by decide⟩
  by_cases h8 : s ≤ 8
  · simp [asize_of, h8]
  · simp only [asize_of, if_neg h8, two32] at hw ⊢
    omega

/-- Witness for claim C5's amended theorem, at `s = 9`. -/
theorem asize_of_correct_without_wrap_witness :
    0 < 9 ∧ 9 + 15 < two32
    ∧ asize_of 9 = (if 9 ≤ 8 then 16 else 8 * ((9 + 8 + 7) / 8)) :=
  ⟨by decide, by decide,
    (asize_of_correct_without_wrap 9 (by decide) (by decide)).1⟩

/-- Claim C10: the adjusted-size computation of `mm_malloc` wraps: for
`s > 8` it is `8 * floor((s + 15) / 8) mod 2^32`, so for every `s`
within 15 of the maximum `size_t` value the adjusted size is smaller
than both `s` and the 16-byte minimum block size; and
`mm_malloc(2^32 - 1)` on the fresh heap returns the non-null payload 16
whose block has internal size 8 — usable size 0, less than the
request. -/
theorem asize_wrap_returns_undersized_block (s : Nat)
    (h1 : two32 - 15 ≤ s) (h2 : s < two32) :
    ¬ s ≤ 8
    ∧ asize_of s = 8 * ((s + 8 + 7) % two32 / 8) % two32
    ∧ asize_of s < 16 ∧ asize_of s < s
    ∧ (mm_malloc 100 heapInit (two32 - 1)).2 = some 16
    ∧ GET_SIZE (GET (mm_malloc 100 heapInit (two32 - 1)).1 (HDRP 16)) = 8
    ∧ GET_SIZE (GET (mm_malloc 100 heapInit (two32 - 1)).1 (HDRP 16)) - 8
        < two32 - 1 := by
  have hs8 : ¬ s ≤ 8 := by simp only [two32] at h1; omega
  have key : asize_of s ≤ 8 := by
    simp only [asize_of, if_neg hs8, two32] at h1 h2 ⊢
    omega
  refine ⟨hs8, by simp [asize_of, hs8], by omega, ?_, by decide, by decide,
    by decide⟩
  simp only [two32] at h1
  omega

/-- Witness for claim C10, at `s = 2^32 - 1`. -/
theorem asize_wrap_returns_undersized_block_witness :
    two32 - 15 ≤ two32 - 1
    ∧ asize_of (two32 - 1) < 16 ∧ asize_of (two32 - 1) < two32 - 1 :=
  ⟨by decide,
    (asize_wrap_returns_undersized_block (two32 - 1) (by decide)
      (by decide)).2.2.1,
    (asize_wrap_returns_undersized_block (two32 - 1) (by decide)
      (by decide)).2.2.2.1⟩

/-- Claim C4: the four cases of `coalesce` on a payload pointer `bp`
whose block (size `sb`) has header and footer already marked free, with
the previous block of size `sp` (footer at `bp - 8`, header matching,
per invariant 2) and next block of size `sn` (header at
`HDRP (bp + sb)`, footer matching), all sizes ≥ 16 as invariant 3
gives for real blocks, and no 32-bit overflow of the merged size.
Case by case, exactly as the spec table states: A/A adds `bp` and
returns it; A/F removes next, writes the merged size (free) into `bp`'s
header and the merged block's footer, adds and returns `bp`; F/A
removes prev, writes the merged size into prev's header and `bp`'s
footer, adds and returns prev; F/F removes both, writes the total into
prev's header and next's footer, adds and returns prev.  The
`GET … = GET st …` premises of the last two cases record that
`remove_freeblock`'s link updates do not touch the named header/footer
words — a consequence of invariants 5–7 (free-list links live in the
payloads of other free blocks). -/
theorem coalesce_four_cases (st : MMState) (bp sp sb sn : Nat)
    (hbp : 16 ≤ bp)
    (hsb : GET_SIZE (GET st (HDRP bp)) = sb) (hsb16 : 16 ≤ sb)
    (hsp : GET_SIZE (GET st (bp - 8)) = sp) (hsp16 : 16 ≤ sp)
    (hspbp : sp + 16 ≤ bp)
    (hsphdr : GET_SIZE (GET st (HDRP (bp - sp))) = sp)
    (hsn : GET_SIZE (GET st (HDRP (bp + sb))) = sn) (hsn16 : 16 ≤ sn)
    (hsnftr : GET_SIZE (GET st (bp + sb + sn - 8)) = sn)
    (hW : sp + sb + sn < two32)
    (hfreeh : GET_ALLOC (GET st (HDRP bp)) = 0)
    (hfreef : GET_ALLOC (GET st (bp + sb - 8)) = 0) :
    (GET_ALLOC (GET st (HDRP (bp - sp))) = 1 →
     GET_ALLOC (GET st (HDRP (bp + sb))) = 1 →
      coalesce st bp = (add_freeblock st bp, bp))
    ∧
    (GET_ALLOC (GET st (HDRP (bp - sp))) = 1 →
     GET_ALLOC (GET st (HDRP (bp + sb))) = 0 →
      coalesce st bp =
        (add_freeblock
          (PUT (PUT (remove_freeblock st (bp + sb)) (HDRP bp)
                 (pack (sb + sn) 0))
            (bp + (sb + sn) - 8) (pack (sb + sn) 0))
          bp, bp))
    ∧
    (GET_ALLOC (GET st (HDRP (bp - sp))) = 0 →
     GET_ALLOC (GET st (HDRP (bp + sb))) = 1 →
     GET (remove_freeblock st (bp - sp)) (bp - 8) = GET st (bp - 8) →
     GET (remove_freeblock st (bp - sp)) (HDRP bp) = GET st (HDRP bp) →
      coalesce st bp =
        (add_freeblock
          (PUT (PUT (remove_freeblock st (bp - sp)) (HDRP (bp - sp))
                 (pack (sb + sp) 0))
            (bp + sb - 8) (pack (sb + sp) 0))
          (bp - sp), bp - sp))
    ∧
    (GET_ALLOC (GET st (HDRP (bp - sp))) = 0 →
     GET_ALLOC (GET st (HDRP (bp + sb))) = 0 →
     GET (remove_freeblock st (bp - sp)) (HDRP bp) = GET st (HDRP bp) →
     GET (remove_freeblock (remove_freeblock st (bp - sp)) (bp + sb))
         (bp - 8) = GET st (bp - 8) →
     GET (remove_freeblock (remove_freeblock st (bp - sp)) (bp + sb))
         (HDRP bp) = GET st (HDRP bp) →
     GET (remove_freeblock (remove_freeblock st (bp - sp)) (bp + sb))
         (HDRP (bp + sb)) = GET st (HDRP (bp + sb)) →
      coalesce st bp =
        (add_freeblock
          (PUT (PUT (remove_freeblock (remove_freeblock st (bp - sp))
                      (bp + sb))
                 (HDRP (bp - sp)) (pack (sb + sp + sn) 0))
            (bp + sb + sn - 8) (pack (sb + sp + sn) 0))
          (bp - sp), bp - sp)) := by
  have hPB : PREV_BLKP st bp = bp - sp := by
    simp only [PREV_BLKP, hsp]
  have hNB : NEXT_BLKP st bp = bp + sb := by
    simp only [NEXT_BLKP, hsb]
  have h8sb : 8 ∣ sb := hsb ▸ dvd8_GET_SIZE _
  have h8sp : 8 ∣ sp := hsp ▸ dvd8_GET_SIZE _
  have h8sn : 8 ∣ sn := hsn ▸ dvd8_GET_SIZE _
  refine ⟨?_, ?_, ?_, ?_⟩
  · -- case A/A
    intro hpa hna
    simp only [coalesce, hPB, hNB, hpa, hna]
    norm_num
  · -- case A/F
    intro hpa hna
    have hm : (sb + sn) % two32 = sb + sn := Nat.mod_eq_of_lt (by omega)
    have hftr : FTRP (PUT (remove_freeblock st (bp + sb)) (HDRP bp)
        (pack (sb + sn) 0)) bp = bp + (sb + sn) - 8 := by
      simp only [FTRP, GET_PUT_eq, pack_zero, hm,
        GET_SIZE_of_dvd (Nat.dvd_add h8sb h8sn)]
    simp only [coalesce, hPB, hNB, hpa, hna, hsb, hsn, hm, hftr]
    norm_num
  · -- case F/A
    intro hpa hna hA hB
    have hm : (sb + sp) % two32 = sb + sp := Nat.mod_eq_of_lt (by omega)
    have hp1 : PREV_BLKP (remove_freeblock st (bp - sp)) bp = bp - sp := by
      simp only [PREV_BLKP, hA, hsp]
    have hne1 : HDRP bp ≠ HDRP (bp - sp) := by simp only [HDRP]; omega
    have hftr2 : FTRP (PUT (remove_freeblock st (bp - sp)) (HDRP (bp - sp))
        (pack (sb + sp) 0)) bp = bp + sb - 8 := by
      simp only [FTRP, GET_PUT_ne _ _ _ _ hne1, hB, hsb]
    have hne2 : bp - 8 ≠ bp + sb - 8 := by omega
    have hne3 : bp - 8 ≠ HDRP (bp - sp) := by simp only [HDRP]; omega
    have hp3 : PREV_BLKP (PUT (PUT (remove_freeblock st (bp - sp))
        (HDRP (bp - sp)) (pack (sb + sp) 0)) (bp + sb - 8)
        (pack (sb + sp) 0)) bp = bp - sp := by
      simp only [PREV_BLKP, GET_PUT_ne _ _ _ _ hne2,
        GET_PUT_ne _ _ _ _ hne3, hA, hsp]
    simp only [coalesce, hPB, hNB, hpa, hna, hsb, hsphdr, hm, hp1, hftr2, hp3]
    norm_num
  · -- case F/F
    intro hpa hna hA1 hA2 hA3 hA4
    have hm : (sb + sp + sn) % two32 = sb + sp + sn :=
      Nat.mod_eq_of_lt (by omega)
    have hftrn : FTRP st (bp + sb) = bp + sb + sn - 8 := by
      simp only [FTRP, hsn]
    have hnb1 : NEXT_BLKP (remove_freeblock st (bp - sp)) bp = bp + sb := by
      simp only [NEXT_BLKP, hA1, hsb]
    have hp2 : PREV_BLKP (remove_freeblock (remove_freeblock st (bp - sp))
        (bp + sb)) bp = bp - sp := by
      simp only [PREV_BLKP, hA2, hsp]
    have hne1 : HDRP bp ≠ HDRP (bp - sp) := by simp only [HDRP]; omega
    have hne4 : HDRP (bp + sb) ≠ HDRP (bp - sp) := by simp only [HDRP]; omega
    have hnb3 : NEXT_BLKP (PUT (remove_freeblock (remove_freeblock st
        (bp - sp)) (bp + sb)) (HDRP (bp - sp)) (pack (sb + sp + sn) 0)) bp
        = bp + sb := by
      simp only [NEXT_BLKP, GET_PUT_ne _ _ _ _ hne1, hA3, hsb]
    have hftr3 : FTRP (PUT (remove_freeblock (remove_freeblock st
        (bp - sp)) (bp + sb)) (HDRP (bp - sp)) (pack (sb + sp + sn) 0))
        (bp + sb) = bp + sb + sn - 8 := by
      simp only [FTRP, GET_PUT_ne _ _ _ _ hne4, hA4, hsn]
    have hne2 : bp - 8 ≠ bp + sb + sn - 8 := by omega
    have hne3 : bp - 8 ≠ HDRP (bp - sp) := by simp only [HDRP]; omega
    have hp4 : PREV_BLKP (PUT (PUT (remove_freeblock (remove_freeblock st
        (bp - sp)) (bp + sb)) (HDRP (bp - sp)) (pack (sb + sp + sn) 0))
        (bp + sb + sn - 8) (pack (sb + sp + sn) 0)) bp = bp - sp := by
      simp only [PREV_BLKP, GET_PUT_ne _ _ _ _ hne2,
        GET_PUT_ne _ _ _ _ hne3, hA2, hsp]
    simp only [coalesce, hPB, hNB, hpa, hna, hsb, hsphdr, hftrn, hsnftr,
      hm, hnb1, hp2, hnb3, hftr3, hp4]
    norm_num

/-- Witness for claim C4, exercising the F/F case at the concrete state
`heapCoal` (`bp = 40`, all three blocks of size 24). -/
theorem coalesce_four_cases_witness :
    GET_ALLOC (GET heapCoal (HDRP (40 - 24))) = 0
    ∧ GET_ALLOC (GET heapCoal (HDRP (40 + 24))) = 0
    ∧ coalesce heapCoal 40 =
      (add_freeblock
        (PUT (PUT (remove_freeblock (remove_freeblock heapCoal (40 - 24))
                    (40 + 24))
               (HDRP (40 - 24)) (pack (24 + 24 + 24) 0))
          (40 + 24 + 24 - 8) (pack (24 + 24 + 24) 0))
        (40 - 24), 40 - 24) :=
  ⟨by decide, by decide,
    (coalesce_four_cases heapCoal 40 24 24 24 (by decide) (by decide)
      (by decide) (by decide) (by decide) (by decide) (by decide)
      (by decide) (by decide) (by decide) (by decide) (by decide)
      (by decide)).2.2.2
      (by decide) (by decide) (by decide) (by decide) (by decide)
      (by decide)⟩

end MM
